import Mathlib

/-!
# Verification of the GitLab runner Terraform resources

A shallow embedding of the two resource controllers of this repository:

* `resource_gitlab_runner.go` — the runner lifecycle resource
  (`resourceGitlabRunnerCreate` / `Read` / `Update` / `Delete`);
* the project/runner association resource
  (`resourceGitlabProjectEnableRunnerCreate` / `Read` / `Delete` and
  `projectIDAndRunnerIDFromID`).

Go's standard library and the terraform-plugin-sdk are modelled explicitly:
`fmt.Sprintf("%d", n)` as `sprintfD`, `strconv.Atoi` as `Atoi`, and the SDK's
`ResourceData.Get` / `GetOk` accessors as total functions over an explicit
state record (`GetOk` reports `ok = false` whenever the stored value is the
type's zero value, per the SDK's documented behaviour).  The GitLab API client
is an oracle record of functions; each lifecycle operation returns the list of
API calls it issued, the final local state, and the Go error value.
-/

/-- Go `error` values, modelled by their message (`nil` is `Option.none` at
use sites). -/
abbrev GoError := String

/-! ## Decimal printing: `fmt.Sprintf("%d", _)` -/

/-- Little-endian decimal digits of `n`, with explicit fuel so that the
definition is structural (and hence reduces inside `decide`/`rfl`).
`toDecRevAux fuel n` is the digit list of `n` provided `n ≤ fuel`. -/
def toDecRevAux : Nat → Nat → List Nat
  | 0, _ => []
  | _ + 1, 0 => []
  | fuel + 1, n + 1 => ((n + 1) % 10) :: toDecRevAux fuel ((n + 1) / 10)

/-- Little-endian decimal digits of `n` (empty for `0`). -/
def toDecRev (n : Nat) : List Nat := toDecRevAux n n

/-- Value of a little-endian decimal digit list. -/
def fromDecRev : List Nat → Nat
  | [] => 0
  | d :: l => d + 10 * fromDecRev l

/-- The character for a single decimal digit. -/
def digitChar (d : Nat) : Char := Char.ofNat (d + 48)

/-- The character list of the decimal representation of `n`. -/
def natDecChars (n : Nat) : List Char :=
  if n = 0 then ['0'] else ((toDecRev n).reverse).map digitChar

/-- Go `fmt.Sprintf("%d", i)`: decimal representation, `-`-prefixed when
negative. -/
def sprintfD (i : Int) : String :=
  if i < 0 then String.mk ('-' :: natDecChars i.natAbs)
  else String.mk (natDecChars i.natAbs)

/-! ## Decimal parsing: `strconv.Atoi` -/

/-- The numeric value of a decimal digit character, `none` on a non-digit. -/
def digitVal (c : Char) : Option Nat :=
  if c.isDigit then some (c.toNat - 48) else none

/-- Fold a big-endian run of digit characters onto an accumulator, failing on
the first non-digit. -/
def parseDigitsLoop (acc : Nat) : List Char → Option Nat
  | [] => some acc
  | c :: cs =>
    match digitVal c with
    | none => none
    | some d => parseDigitsLoop (acc * 10 + d) cs

/-- Parse a non-empty all-digits character list. -/
def parseNatDigits (cs : List Char) : Option Nat :=
  if cs.isEmpty then none else parseDigitsLoop 0 cs

/-- Strip an optional leading sign, returning (isNegative, remaining digits). -/
def atoiSign : List Char → Bool × List Char
  | c :: rest =>
    if c = '+' then (false, rest)
    else if c = '-' then (true, rest)
    else (false, c :: rest)
  | [] => (false, [])

/-- Go `strconv.Atoi(s)`, returning `(value, err)` exactly as the Go function
does: an optional leading sign followed by at least one decimal digit; any
other shape yields `(0, some err)` with Go's syntax-error message. -/
def Atoi (s : String) : Int × Option GoError :=
  let p : Bool × List Char := atoiSign s.data
  match parseNatDigits p.2 with
  | none =>
    (0, some ("strconv.Atoi: parsing " ++ "\"" ++ s ++ "\"" ++ ": invalid syntax"))
  | some n => (if p.1 then -(n : Int) else (n : Int), none)

/-! ## Two-part composite identifiers

`buildTwoPartID` and `parseTwoPartID` live in the provider's shared helpers,
outside the two source files of this slice; they are modelled from the spec. -/

/-- Modelled from the spec: `buildTwoPartID` (shared provider helper, not
under the runner sources) joins the two identifier strings with the fixed
separator `":"`. -/
def buildTwoPartID (a b : String) : String := a ++ ":" ++ b

/-- Split a character list at the first `':'`; `none` when no `':'` occurs. -/
def splitFirstColon : List Char → Option (List Char × List Char)
  | [] => none
  | c :: cs =>
    if c = ':' then some ([], cs)
    else
      match splitFirstColon cs with
      | none => none
      | some (a, b) => some (c :: a, b)

/-- Modelled from the spec: `parseTwoPartID` (shared provider helper, not
under the runner sources) splits a composite identifier at the first `":"`
into its two halves and fails with a decoding error when the separator is
missing.  Mirrors Go's multiple return `(String, String, error)`. -/
def parseTwoPartID (s : String) : String × String × Option GoError :=
  match splitFirstColon s.data with
  | none => ("", "", some ("Unexpected ID format (" ++ s ++ "). Expected project:key"))
  | some (a, b) => (String.mk a, String.mk b, none)

/-- `projectIDAndRunnerIDFromID` from the association resource source:
decode the composite identifier, prefixing half-specific parse failures, and
returning zero values for both identifiers on any error. -/
def projectIDAndRunnerIDFromID (s : String) : Int × Int × Option GoError :=
  match parseTwoPartID s with
  | (_, _, some e) => (0, 0, some e)
  | (projectIDString, runnerIDString, none) =>
    match Atoi projectIDString with
    | (_, some e) => (0, 0, some ("failed to get project: " ++ e))
    | (projectID, none) =>
      match Atoi runnerIDString with
      | (_, some e) => (0, 0, some ("failed to get runner: " ++ e))
      | (runnerID, none) => (projectID, runnerID, none)

/-! ## Correctness lemmas for the numeric/string model -/

theorem fromDecRev_toDecRevAux : ∀ fuel n, n ≤ fuel →
    fromDecRev (toDecRevAux fuel n) = n := by
  intro fuel
  induction fuel with
  | zero => intro n h; interval_cases n; rfl
  | succ fuel ih =>
    intro n h
    cases n with
    | zero => rfl
    | succ m =>
      have hdiv : (m + 1) / 10 ≤ fuel := by
        have h1 := Nat.div_lt_self (Nat.succ_pos m) (show 1 < 10 by omega)
        omega
      simp only [toDecRevAux, fromDecRev, ih _ hdiv]
      omega

theorem toDecRevAux_lt_ten : ∀ fuel n d, d ∈ toDecRevAux fuel n → d < 10 := by
  intro fuel
  induction fuel with
  | zero => intro n d h; simp [toDecRevAux] at h
  | succ fuel ih =>
    intro n d h
    cases n with
    | zero => simp [toDecRevAux] at h
    | succ m =>
      simp only [toDecRevAux, List.mem_cons] at h
      rcases h with h | h
      · omega
      · exact ih _ _ h

theorem digitChar_isDigit {d : Nat} (h : d < 10) : (digitChar d).isDigit = true := by
  interval_cases d <;> decide

theorem digitVal_digitChar {d : Nat} (h : d < 10) : digitVal (digitChar d) = some d := by
  interval_cases d <;> decide

theorem natDecChars_isDigit {n : Nat} {c : Char} (h : c ∈ natDecChars n) :
    c.isDigit = true := by
  unfold natDecChars at h
  split at h
  · simp at h; subst h; decide
  · simp only [List.mem_map, List.mem_reverse] at h
    obtain ⟨d, hd, rfl⟩ := h
    exact digitChar_isDigit (toDecRevAux_lt_ten _ _ _ hd)

theorem parseDigitsLoop_map : ∀ (l : List Nat) (acc : Nat), (∀ d ∈ l, d < 10) →
    parseDigitsLoop acc (l.map digitChar) =
      some (l.foldl (fun a d => a * 10 + d) acc) := by
  intro l
  induction l with
  | nil => intro acc _; rfl
  | cons d t ih =>
    intro acc h
    have hd : d < 10 := h d (List.mem_cons_self d t)
    simp only [List.map_cons, parseDigitsLoop, digitVal_digitChar hd, List.foldl_cons]
    exact ih _ (fun x hx => h x (List.mem_cons_of_mem d hx))

theorem foldl_reverse_fromDecRev : ∀ (l : List Nat) (acc : Nat),
    List.foldl (fun a d => a * 10 + d) acc l.reverse =
      acc * 10 ^ l.length + fromDecRev l := by
  intro l
  induction l with
  | nil => intro acc; simp [fromDecRev]
  | cons d t ih =>
    intro acc
    simp only [List.reverse_cons, List.foldl_append, List.foldl_cons,
      List.foldl_nil, ih, fromDecRev, List.length_cons]
    ring

theorem toDecRev_succ (m : Nat) :
    toDecRev (m + 1) = ((m + 1) % 10) :: toDecRevAux m ((m + 1) / 10) := rfl

theorem parseNatDigits_natDecChars (n : Nat) :
    parseNatDigits (natDecChars n) = some n := by
  cases n with
  | zero => rfl
  | succ m =>
    have hne : natDecChars (m + 1) ≠ [] := by
      simp [natDecChars, toDecRev_succ]
    have hlt : ∀ d ∈ (toDecRev (m + 1)).reverse, d < 10 := by
      intro d hd
      exact toDecRevAux_lt_ten _ _ _ (List.mem_reverse.mp hd)
    have hform : natDecChars (m + 1) = ((toDecRev (m + 1)).reverse).map digitChar := by
      simp [natDecChars]
    rw [parseNatDigits, if_neg (by simpa [List.isEmpty_iff] using hne), hform,
      parseDigitsLoop_map _ 0 hlt, foldl_reverse_fromDecRev]
    simp [fromDecRev_toDecRevAux m.succ m.succ (Nat.le_refl _), toDecRev]

theorem natDecChars_ne_nil (n : Nat) : natDecChars n ≠ [] := by
  cases n with
  | zero => decide
  | succ m => simp [natDecChars, toDecRev_succ]

theorem atoiSign_digit {c : Char} (cs : List Char) (h : c.isDigit = true) :
    atoiSign (c :: cs) = (false, c :: cs) := by
  have hp : ¬ (c = '+') := by intro e; subst e; exact absurd h (by decide)
  have hm : ¬ (c = '-') := by intro e; subst e; exact absurd h (by decide)
  simp [atoiSign, hp, hm]

theorem atoiSign_minus (cs : List Char) : atoiSign ('-' :: cs) = (true, cs) := by
  simp [atoiSign]

theorem Atoi_eval {s : String} {neg : Bool} {ds : List Char} {n : Nat}
    (hsign : atoiSign s.data = (neg, ds)) (hparse : parseNatDigits ds = some n) :
    Atoi s = (if neg then -(n : Int) else (n : Int), none) := by
  unfold Atoi
  simp only [hsign, hparse]

theorem Atoi_mk_natDecChars (n : Nat) :
    Atoi (String.mk (natDecChars n)) = ((n : Int), none) := by
  obtain ⟨c, cs, h⟩ := List.exists_cons_of_ne_nil (natDecChars_ne_nil n)
  have hc : c.isDigit = true := natDecChars_isDigit (h ▸ List.mem_cons_self c cs)
  have hsign : atoiSign (String.mk (natDecChars n)).data = (false, natDecChars n) := by
    show atoiSign (natDecChars n) = (false, natDecChars n)
    rw [h]
    exact atoiSign_digit cs hc
  rw [Atoi_eval hsign (parseNatDigits_natDecChars n)]
  simp

theorem Atoi_sprintfD (i : Int) : Atoi (sprintfD i) = (i, none) := by
  by_cases hi : i < 0
  · have hform : sprintfD i = String.mk ('-' :: natDecChars i.natAbs) := by
      simp [sprintfD, hi]
    have hsign : atoiSign (String.mk ('-' :: natDecChars i.natAbs)).data
        = (true, natDecChars i.natAbs) := atoiSign_minus _
    rw [hform, Atoi_eval hsign (parseNatDigits_natDecChars i.natAbs)]
    have hv : -((i.natAbs : Nat) : Int) = i := by omega
    simp [hv]
    rw [abs_of_neg hi]
    ring
  · have hform : sprintfD i = String.mk (natDecChars i.natAbs) := by
      simp [sprintfD, hi]
    rw [hform, Atoi_mk_natDecChars]
    have hv : ((i.natAbs : Nat) : Int) = i := by omega
    rw [hv]

theorem sprintfD_no_colon (i : Int) : ∀ c ∈ (sprintfD i).data, c ≠ ':' := by
  intro c hc
  have hdig : c.isDigit = true ∨ c = '-' := by
    by_cases hi : i < 0
    · have : (sprintfD i).data = '-' :: natDecChars i.natAbs := by simp [sprintfD, hi]
      rw [this] at hc
      rcases List.mem_cons.mp hc with h | h
      · right; exact h
      · left; exact natDecChars_isDigit h
    · have : (sprintfD i).data = natDecChars i.natAbs := by simp [sprintfD, hi]
      rw [this] at hc
      left; exact natDecChars_isDigit hc
  rcases hdig with h | h
  · intro e; subst e; exact absurd h (by decide)
  · subst h; decide

theorem splitFirstColon_append : ∀ (a b : List Char), (∀ c ∈ a, c ≠ ':') →
    splitFirstColon (a ++ ':' :: b) = some (a, b) := by
  intro a
  induction a with
  | nil => intro b _; rw [List.nil_append]; simp [splitFirstColon]
  | cons c t ih =>
    intro b h
    have hc : ¬ (c = ':') := h c (List.mem_cons_self c t)
    simp only [List.cons_append, splitFirstColon, if_neg hc, List.append_eq,
      ih b (fun x hx => h x (List.mem_cons_of_mem c hx))]

theorem data_buildTwoPartID (x y : String) :
    (buildTwoPartID x y).data = x.data ++ ':' :: y.data := by
  show ((x ++ ":") ++ y).data = x.data ++ ':' :: y.data
  rw [String.data_append, String.data_append]
  simp

theorem parseTwoPartID_build (x y : String) (hx : ∀ c ∈ x.data, c ≠ ':') :
    parseTwoPartID (buildTwoPartID x y) = (x, y, none) := by
  unfold parseTwoPartID
  rw [data_buildTwoPartID, splitFirstColon_append x.data y.data hx]

theorem decode_encode_int (p r : Int) :
    projectIDAndRunnerIDFromID (buildTwoPartID (sprintfD p) (sprintfD r))
      = (p, r, none) := by
  unfold projectIDAndRunnerIDFromID
  rw [parseTwoPartID_build _ _ (sprintfD_no_colon p)]
  simp only [Atoi_sprintfD]

/-! ## The project/runner association resource

State, API-client oracle, and the three lifecycle operations of
`resourceGitlabProjectEnableRunner`.  Each operation returns the list of API
calls issued (in order), the final local state, and the Go error value. -/

/-- One entry of the list returned by `ListProjectRunners`; only its `ID`
field is inspected by the source. -/
structure RunnerListEntry where
  ID : Int
  deriving Repr, DecidableEq

/-- The slice of the GitLab client consumed by the association resource:
`Runners.EnableProjectRunner`, `Runners.ListProjectRunners`,
`Runners.DisableProjectRunner`. -/
structure AssocClient where
  enableProjectRunner : Int → Int → Except GoError Unit
  listProjectRunners : Int → Except GoError (List RunnerListEntry)
  disableProjectRunner : Int → Int → Except GoError Unit

/-- The terraform state of the association resource: the stored identifier
plus the two declared, required integer attributes. -/
structure EnableRunnerData where
  id : String
  project_id : Int
  runner_id : Int
  deriving Repr, DecidableEq

/-- An API call issued by the association resource. -/
inductive AssocApiCall where
  | enable (projectID runnerID : Int)
  | list (projectID : Int)
  | disable (projectID runnerID : Int)
  deriving Repr, DecidableEq

/-- Result of one association lifecycle operation: calls issued, final local
state, returned Go error. -/
structure AssocResult where
  calls : List AssocApiCall
  d : EnableRunnerData
  err : Option GoError
  deriving Repr, DecidableEq

/-- `resourceGitlabProjectEnableRunnerRead`: decode the stored identifier,
list the project's runners, succeed leaving state intact when the runner id
occurs, otherwise clear the stored identifier (`d.SetId("")`) and succeed. -/
def resourceGitlabProjectEnableRunnerRead (client : AssocClient)
    (d : EnableRunnerData) : AssocResult :=
  match projectIDAndRunnerIDFromID d.id with
  | (_, _, some e) => ⟨[], d, some e⟩
  | (projectID, runnerID, none) =>
    match client.listProjectRunners projectID with
    | .error e => ⟨[.list projectID], d, some e⟩
    | .ok runners =>
      if runners.any (fun runner => runner.ID == runnerID) then
        ⟨[.list projectID], d, none⟩
      else
        ⟨[.list projectID], { d with id := "" }, none⟩

/-- `resourceGitlabProjectEnableRunnerCreate`: enable the runner on the
project, store the composite identifier built from the two decimal strings,
then return the result of Read. -/
def resourceGitlabProjectEnableRunnerCreate (client : AssocClient)
    (d : EnableRunnerData) : AssocResult :=
  let projectID := d.project_id
  let runnerID := d.runner_id
  match client.enableProjectRunner projectID runnerID with
  | .error e => ⟨[.enable projectID runnerID], d, some e⟩
  | .ok _ =>
    let spid := sprintfD projectID
    let srid := sprintfD runnerID
    let d1 := { d with id := buildTwoPartID spid srid }
    let r := resourceGitlabProjectEnableRunnerRead client d1
    ⟨.enable projectID runnerID :: r.calls, r.d, r.err⟩

/-- `resourceGitlabProjectEnableRunnerDelete`: decode the stored identifier
and disable the runner on the project, surfacing any error unfiltered. -/
def resourceGitlabProjectEnableRunnerDelete (client : AssocClient)
    (d : EnableRunnerData) : AssocResult :=
  match projectIDAndRunnerIDFromID d.id with
  | (_, _, some e) => ⟨[], d, some e⟩
  | (projectID, runnerID, none) =>
    match client.disableProjectRunner projectID runnerID with
    | .error e => ⟨[.disable projectID runnerID], d, some e⟩
    | .ok _ => ⟨[.disable projectID runnerID], d, none⟩

/-! ## The runner resource

State, request options, API-client oracle, and the four lifecycle operations
of `resourceGitlabRunner` (`resource_gitlab_runner.go`).

Optional/computed attributes are stored as `Option` values so that the SDK's
"unset" is representable; `ResourceData.Get` yields the schema's zero value
(or declared default) when unset, and `ResourceData.GetOk` additionally
reports `ok = false` whenever the stored value equals the type's zero value
(empty set, `0`), per the SDK's documented behaviour. -/

/-- One entry of the `projects` attribute, as rebuilt by Read. -/
structure ProjectState where
  id : Int
  name : String
  name_with_namespace : String
  path : String
  path_with_namespace : String
  deriving Repr, DecidableEq

/-- One entry of the `groups` attribute, as rebuilt by Read. -/
structure GroupState where
  id : Int
  name : String
  web_url : String
  deriving Repr, DecidableEq

/-- A project summary inside the `GetRunnerDetails` response (the fields the
source copies). -/
structure RunnerProject where
  ID : Int
  Name : String
  NameWithNamespace : String
  Path : String
  PathWithNamespace : String
  deriving Repr, DecidableEq

/-- A group summary inside the `GetRunnerDetails` response (the fields the
source copies). -/
structure RunnerGroup where
  ID : Int
  Name : String
  WebURL : String
  deriving Repr, DecidableEq

/-- The `GetRunnerDetails` response record.  Field types follow the resource
schema the values are stored into (the client library's struct is outside
these sources). -/
structure RunnerDetails where
  ID : Int
  Token : String
  Description : String
  AccessLevel : String
  Revision : String
  Version : String
  IsShared : Bool
  MaximumTimeout : Int
  TagList : List String
  Locked : Bool
  Online : String
  Status : Bool
  IPAddress : String
  ContactedAt : String
  Architecture : String
  Name : String
  Projects : List RunnerProject
  Groups : List RunnerGroup
  deriving Repr, DecidableEq

/-- `gitlab.RegisterNewRunnerOptions`: pointer fields are `Option`
(`none` = field absent from the request). -/
structure RegisterNewRunnerOptions where
  Token : Option String
  Description : Option String
  RunUntagged : Option Bool
  Active : Option Bool
  Locked : Option Bool
  TagList : Option (List String)
  MaximumTimeout : Option Int
  deriving Repr, DecidableEq

/-- `gitlab.UpdateRunnerDetailsOptions`: pointer fields are `Option`
(`none` = field absent from the request). -/
structure UpdateRunnerDetailsOptions where
  Description : Option String
  RunUntagged : Option Bool
  Active : Option Bool
  Locked : Option Bool
  AccessLevel : Option String
  TagList : Option (List String)
  MaximumTimeout : Option Int
  deriving Repr, DecidableEq

/-- The slice of the GitLab client consumed by the runner resource. -/
structure RunnerClient where
  registerNewRunner : RegisterNewRunnerOptions → Except GoError RunnerDetails
  getRunnerDetails : Int → Except GoError RunnerDetails
  updateRunnerDetails : Int → UpdateRunnerDetailsOptions → Except GoError Unit
  removeRunner : Int → Except GoError Unit

/-- The terraform state of the runner resource.  Caller-settable attributes
are `Option` (declared or unset); purely computed attributes are plain. -/
structure RunnerResourceData where
  id : String
  registration_token : String
  description : Option String
  run_untagged : Option Bool
  active : Option Bool
  locked : Option Bool
  access_level : Option String
  tags : Option (List String)
  maximum_timeout : Option Int
  runner_id : Int
  token : String
  revision : String
  version : String
  is_shared : Bool
  online : String
  status : Bool
  ip_address : String
  contacted_at : String
  architecture : String
  name : String
  projects : List ProjectState
  groups : List GroupState
  deriving Repr, DecidableEq

/-- An API call issued by the runner resource. -/
inductive RunnerApiCall where
  | register (options : RegisterNewRunnerOptions)
  | get (runnerID : Int)
  | update (runnerID : Int) (options : UpdateRunnerDetailsOptions)
  | remove (runnerID : Int)
  deriving Repr, DecidableEq

/-- Result of one runner lifecycle operation: calls issued, final local
state, returned Go error. -/
structure RunnerResult where
  calls : List RunnerApiCall
  d : RunnerResourceData
  err : Option GoError
  deriving Repr, DecidableEq

/-- `d.GetOk` on a `TypeSet` attribute: the value, and `ok = false` when the
set is unset or its zero value (empty). -/
def getOkSet (v : Option (List String)) : List String × Bool :=
  match v with
  | none => ([], false)
  | some l => (l, !l.isEmpty)

/-- `d.GetOk` on a `TypeInt` attribute: the value, and `ok = false` when the
attribute is unset or its zero value (`0`). -/
def getOkInt (v : Option Int) : Int × Bool :=
  match v with
  | none => (0, false)
  | some n => (n, !(n == 0))

/-- Modelled from the spec: `stringSetToStringSlice` (shared provider helper,
not under the runner sources) converts the unordered, deduplicated tag set
into the slice sent in a request; on this model's set representation it is
the identity. -/
def stringSetToStringSlice (s : List String) : List String := s

/-- The `gitlab.RegisterNewRunnerOptions` value built by Create: token,
description, run_untagged, active and locked are always populated from
`d.Get` (zero value when undeclared); TagList and MaximumTimeout start as
Go's nil and are assigned under "if v, ok := d.GetOk(...); ok", rendered
here field-wise (the two conditional assignments touch distinct fields). -/
def createRegisterOptions (d : RunnerResourceData) : RegisterNewRunnerOptions :=
  let tagsOk := getOkSet d.tags
  let timeoutOk := getOkInt d.maximum_timeout
  { Token := some d.registration_token
    Description := some (d.description.getD "")
    RunUntagged := some (d.run_untagged.getD false)
    Active := some (d.active.getD false)
    Locked := some (d.locked.getD false)
    TagList := if tagsOk.2 then some (stringSetToStringSlice tagsOk.1) else none
    MaximumTimeout := if timeoutOk.2 then some timeoutOk.1 else none }

/-- The `gitlab.UpdateRunnerDetailsOptions` value built by Update: the five
`d.Get` fields (including access_level) are always populated; TagList and
MaximumTimeout start as Go's nil and are assigned under
"if v, ok := d.GetOk(...); ok", rendered field-wise. -/
def updateRunnerOptions (d : RunnerResourceData) : UpdateRunnerDetailsOptions :=
  let tagsOk := getOkSet d.tags
  let timeoutOk := getOkInt d.maximum_timeout
  { Description := some (d.description.getD "")
    RunUntagged := some (d.run_untagged.getD false)
    Active := some (d.active.getD false)
    Locked := some (d.locked.getD false)
    AccessLevel := some (d.access_level.getD "")
    TagList := if tagsOk.2 then some (stringSetToStringSlice tagsOk.1) else none
    MaximumTimeout := if timeoutOk.2 then some timeoutOk.1 else none }

/-- `resourceGitlabRunnerRead`: parse the stored id, fetch the runner
details, and on success overwrite every listed attribute with the response's
value, rebuilding `projects` and `groups` in the API's order. -/
def resourceGitlabRunnerRead (client : RunnerClient)
    (d : RunnerResourceData) : RunnerResult :=
  match Atoi d.id with
  | (_, some e) => ⟨[], d, some e⟩
  | (runnerID, none) =>
    match client.getRunnerDetails runnerID with
    | .error e => ⟨[.get runnerID], d, some e⟩
    | .ok v =>
      ⟨[.get runnerID],
       { d with
          runner_id := v.ID
          token := v.Token
          description := some v.Description
          access_level := some v.AccessLevel
          revision := v.Revision
          version := v.Version
          is_shared := v.IsShared
          maximum_timeout := some v.MaximumTimeout
          tags := some v.TagList
          locked := some v.Locked
          online := v.Online
          status := v.Status
          ip_address := v.IPAddress
          contacted_at := v.ContactedAt
          architecture := v.Architecture
          name := v.Name
          projects := v.Projects.map (fun project =>
            { id := project.ID
              name := project.Name
              name_with_namespace := project.NameWithNamespace
              path := project.Path
              path_with_namespace := project.PathWithNamespace })
          groups := v.Groups.map (fun group =>
            { id := group.ID
              name := group.Name
              web_url := group.WebURL }) },
       none⟩

/-- `resourceGitlabRunnerUpdate`: parse the stored id, send one update
request carrying all declared mutable fields, and on success conclude with
Read; any API error aborts before Read. -/
def resourceGitlabRunnerUpdate (client : RunnerClient)
    (d : RunnerResourceData) : RunnerResult :=
  match Atoi d.id with
  | (_, some e) => ⟨[], d, some e⟩
  | (id, none) =>
    let options := updateRunnerOptions d
    match client.updateRunnerDetails id options with
    | .error e => ⟨[.update id options], d, some e⟩
    | .ok _ =>
      let r := resourceGitlabRunnerRead client d
      ⟨.update id options :: r.calls, r.d, r.err⟩

/-- `resourceGitlabRunnerCreate`: register the runner, store the returned id
as the entity's identifier, then return the result of Update on the same
declared configuration (the source deliberately ends with Update because
access_level is not settable at registration time). -/
def resourceGitlabRunnerCreate (client : RunnerClient)
    (d : RunnerResourceData) : RunnerResult :=
  let options := createRegisterOptions d
  match client.registerNewRunner options with
  | .error e => ⟨[.register options], d, some e⟩
  | .ok runnerDetails =>
    let d1 := { d with id := sprintfD runnerDetails.ID }
    let r := resourceGitlabRunnerUpdate client d1
    ⟨.register options :: r.calls, r.d, r.err⟩

/-- `resourceGitlabRunnerDelete`: parse the stored id and remove the runner,
surfacing any error unfiltered. -/
def resourceGitlabRunnerDelete (client : RunnerClient)
    (d : RunnerResourceData) : RunnerResult :=
  match Atoi d.id with
  | (_, some e) => ⟨[], d, some e⟩
  | (id, none) =>
    match client.removeRunner id with
    | .error e => ⟨[.remove id], d, some e⟩
    | .ok _ => ⟨[.remove id], d, none⟩

/-! ## Helper lemmas about the request builders and lifecycle operations -/

/-- The TagList a request ends up carrying for a stored tag set: absent when
the set is unset or empty, the declared slice otherwise. -/
def tagListSent (v : Option (List String)) : Option (List String) :=
  match v with
  | none => none
  | some l => if l.isEmpty then none else some (stringSetToStringSlice l)

/-- The MaximumTimeout a request ends up carrying for a stored value: absent
when the attribute is unset or zero, the declared value otherwise. -/
def timeoutSent (v : Option Int) : Option Int :=
  match v with
  | none => none
  | some n => if n = 0 then none else some n

theorem createRegisterOptions_eq (d : RunnerResourceData) :
    createRegisterOptions d =
      { Token := some d.registration_token
        Description := some (d.description.getD "")
        RunUntagged := some (d.run_untagged.getD false)
        Active := some (d.active.getD false)
        Locked := some (d.locked.getD false)
        TagList := tagListSent d.tags
        MaximumTimeout := timeoutSent d.maximum_timeout } := by
  unfold createRegisterOptions tagListSent timeoutSent
  cases ht : d.tags with
  | none =>
    cases hm : d.maximum_timeout with
    | none => simp [getOkSet, getOkInt]
    | some n => by_cases hn : n = 0 <;> simp [getOkSet, getOkInt, hn]
  | some l =>
    cases hm : d.maximum_timeout with
    | none => by_cases hl : l.isEmpty <;> simp [getOkSet, getOkInt, hl]
    | some n =>
      by_cases hn : n = 0 <;> by_cases hl : l.isEmpty <;>
        simp [getOkSet, getOkInt, hn, hl]

theorem updateRunnerOptions_eq (d : RunnerResourceData) :
    updateRunnerOptions d =
      { Description := some (d.description.getD "")
        RunUntagged := some (d.run_untagged.getD false)
        Active := some (d.active.getD false)
        Locked := some (d.locked.getD false)
        AccessLevel := some (d.access_level.getD "")
        TagList := tagListSent d.tags
        MaximumTimeout := timeoutSent d.maximum_timeout } := by
  unfold updateRunnerOptions tagListSent timeoutSent
  cases ht : d.tags with
  | none =>
    cases hm : d.maximum_timeout with
    | none => simp [getOkSet, getOkInt]
    | some n => by_cases hn : n = 0 <;> simp [getOkSet, getOkInt, hn]
  | some l =>
    cases hm : d.maximum_timeout with
    | none => by_cases hl : l.isEmpty <;> simp [getOkSet, getOkInt, hl]
    | some n =>
      by_cases hn : n = 0 <;> by_cases hl : l.isEmpty <;>
        simp [getOkSet, getOkInt, hn, hl]

/-- The register request options of the first call Create issues, when that
call is a register call. -/
def firstRegisterOptions : List RunnerApiCall → Option RegisterNewRunnerOptions
  | .register o :: _ => some o
  | _ => none

/-- The update request options of the first call Update issues, when that
call is an update call. -/
def firstUpdateOptions : List RunnerApiCall → Option UpdateRunnerDetailsOptions
  | .update _ o :: _ => some o
  | _ => none

theorem runnerCreate_first_call (client : RunnerClient) (d : RunnerResourceData) :
    firstRegisterOptions (resourceGitlabRunnerCreate client d).calls
      = some (createRegisterOptions d) := by
  unfold resourceGitlabRunnerCreate
  cases h : client.registerNewRunner (createRegisterOptions d) <;>
    simp [h, firstRegisterOptions]

theorem runnerUpdate_first_call (client : RunnerClient) (d : RunnerResourceData)
    (i : Int) (hid : Atoi d.id = (i, none)) :
    firstUpdateOptions (resourceGitlabRunnerUpdate client d).calls
      = some (updateRunnerOptions d) := by
  unfold resourceGitlabRunnerUpdate
  rw [hid]
  cases h : client.updateRunnerDetails i (updateRunnerOptions d) <;>
    simp [h, firstUpdateOptions]

theorem runnerUpdate_ok (client : RunnerClient) (d : RunnerResourceData)
    (i : Int) (hid : Atoi d.id = (i, none))
    (hupd : client.updateRunnerDetails i (updateRunnerOptions d) = .ok ()) :
    resourceGitlabRunnerUpdate client d
      = ⟨.update i (updateRunnerOptions d)
           :: (resourceGitlabRunnerRead client d).calls,
         (resourceGitlabRunnerRead client d).d,
         (resourceGitlabRunnerRead client d).err⟩ := by
  unfold resourceGitlabRunnerUpdate
  rw [hid]
  simp [hupd]

theorem runnerUpdate_err (client : RunnerClient) (d : RunnerResourceData)
    (i : Int) (e : GoError) (hid : Atoi d.id = (i, none))
    (hupd : client.updateRunnerDetails i (updateRunnerOptions d) = .error e) :
    resourceGitlabRunnerUpdate client d
      = ⟨[.update i (updateRunnerOptions d)], d, some e⟩ := by
  unfold resourceGitlabRunnerUpdate
  rw [hid]
  simp [hupd]

theorem runnerCreate_ok (client : RunnerClient) (d : RunnerResourceData)
    (v : RunnerDetails)
    (hreg : client.registerNewRunner (createRegisterOptions d) = .ok v) :
    resourceGitlabRunnerCreate client d
      = ⟨.register (createRegisterOptions d)
           :: (resourceGitlabRunnerUpdate client { d with id := sprintfD v.ID }).calls,
         (resourceGitlabRunnerUpdate client { d with id := sprintfD v.ID }).d,
         (resourceGitlabRunnerUpdate client { d with id := sprintfD v.ID }).err⟩ := by
  unfold resourceGitlabRunnerCreate
  simp only [hreg]

theorem runnerRead_err (client : RunnerClient) (d : RunnerResourceData)
    (i : Int) (e : GoError) (hid : Atoi d.id = (i, none))
    (hget : client.getRunnerDetails i = .error e) :
    resourceGitlabRunnerRead client d = ⟨[.get i], d, some e⟩ := by
  unfold resourceGitlabRunnerRead
  rw [hid]
  simp [hget]

theorem runnerRead_ok (client : RunnerClient) (d : RunnerResourceData)
    (i : Int) (v : RunnerDetails) (hid : Atoi d.id = (i, none))
    (hget : client.getRunnerDetails i = .ok v) :
    resourceGitlabRunnerRead client d
      = ⟨[.get i],
         { d with
            runner_id := v.ID
            token := v.Token
            description := some v.Description
            access_level := some v.AccessLevel
            revision := v.Revision
            version := v.Version
            is_shared := v.IsShared
            maximum_timeout := some v.MaximumTimeout
            tags := some v.TagList
            locked := some v.Locked
            online := v.Online
            status := v.Status
            ip_address := v.IPAddress
            contacted_at := v.ContactedAt
            architecture := v.Architecture
            name := v.Name
            projects := v.Projects.map (fun project =>
              { id := project.ID
                name := project.Name
                name_with_namespace := project.NameWithNamespace
                path := project.Path
                path_with_namespace := project.PathWithNamespace })
            groups := v.Groups.map (fun group =>
              { id := group.ID
                name := group.Name
                web_url := group.WebURL }) },
         none⟩ := by
  unfold resourceGitlabRunnerRead
  rw [hid]
  simp [hget]

theorem assocRead_decode_err (client : AssocClient) (d : EnableRunnerData)
    (e : GoError) (hdec : projectIDAndRunnerIDFromID d.id = (0, 0, some e)) :
    resourceGitlabProjectEnableRunnerRead client d = ⟨[], d, some e⟩ := by
  unfold resourceGitlabProjectEnableRunnerRead
  rw [hdec]

theorem assocDelete_decode_err (client : AssocClient) (d : EnableRunnerData)
    (e : GoError) (hdec : projectIDAndRunnerIDFromID d.id = (0, 0, some e)) :
    resourceGitlabProjectEnableRunnerDelete client d = ⟨[], d, some e⟩ := by
  unfold resourceGitlabProjectEnableRunnerDelete
  rw [hdec]

theorem assocRead_notfound (client : AssocClient) (d : EnableRunnerData)
    (projectID runnerID : Int) (runners : List RunnerListEntry)
    (hdec : projectIDAndRunnerIDFromID d.id = (projectID, runnerID, none))
    (hlist : client.listProjectRunners projectID = .ok runners)
    (habsent : ∀ r ∈ runners, r.ID ≠ runnerID) :
    resourceGitlabProjectEnableRunnerRead client d
      = ⟨[.list projectID], { d with id := "" }, none⟩ := by
  have hany : runners.any (fun runner => runner.ID == runnerID) = false := by
    simp only [List.any_eq_false, beq_iff_eq]
    exact habsent
  unfold resourceGitlabProjectEnableRunnerRead
  rw [hdec]
  simp [hlist, hany]

theorem assocRead_found (client : AssocClient) (d : EnableRunnerData)
    (projectID runnerID : Int) (runners : List RunnerListEntry)
    (hdec : projectIDAndRunnerIDFromID d.id = (projectID, runnerID, none))
    (hlist : client.listProjectRunners projectID = .ok runners)
    (hpresent : ∃ r ∈ runners, r.ID = runnerID) :
    resourceGitlabProjectEnableRunnerRead client d
      = ⟨[.list projectID], d, none⟩ := by
  have hany : runners.any (fun runner => runner.ID == runnerID) = true := by
    simp only [List.any_eq_true, beq_iff_eq]
    exact hpresent
  unfold resourceGitlabProjectEnableRunnerRead
  rw [hdec]
  simp [hlist, hany]

theorem assocCreate_ok (client : AssocClient) (d : EnableRunnerData)
    (hen : client.enableProjectRunner d.project_id d.runner_id = .ok ()) :
    resourceGitlabProjectEnableRunnerCreate client d
      = ⟨.enable d.project_id d.runner_id
           :: (resourceGitlabProjectEnableRunnerRead client
                { d with id := buildTwoPartID (sprintfD d.project_id) (sprintfD d.runner_id) }).calls,
         (resourceGitlabProjectEnableRunnerRead client
            { d with id := buildTwoPartID (sprintfD d.project_id) (sprintfD d.runner_id) }).d,
         (resourceGitlabProjectEnableRunnerRead client
            { d with id := buildTwoPartID (sprintfD d.project_id) (sprintfD d.runner_id) }).err⟩ := by
  unfold resourceGitlabProjectEnableRunnerCreate
  simp only [hen]

theorem splitFirstColon_none : ∀ (l : List Char), (∀ c ∈ l, c ≠ ':') →
    splitFirstColon l = none := by
  intro l
  induction l with
  | nil => intro _; rfl
  | cons c t ih =>
    intro h
    have hc : ¬ (c = ':') := h c (List.mem_cons_self c t)
    simp only [splitFirstColon, if_neg hc,
      ih (fun x hx => h x (List.mem_cons_of_mem c hx))]

/-! ## Concrete fixtures for witnesses and counterexamples -/

/-- An association client whose calls all succeed and whose project runner
list is empty. -/
def assocClientEmpty : AssocClient :=
  { enableProjectRunner := fun _ _ => .ok ()
    listProjectRunners := fun _ => .ok []
    disableProjectRunner := fun _ _ => .ok () }

/-- Association state holding the composite identifier of project 7 and
runner 42. -/
def assocData0 : EnableRunnerData := ⟨"7:42", 7, 42⟩

/-- Association state holding a malformed identifier with no separator. -/
def assocDataBad : EnableRunnerData := ⟨"nocolon", 7, 42⟩

/-- A sample runner-details response. -/
def sampleDetails : RunnerDetails :=
  { ID := 5
    Token := "tok"
    Description := "a runner"
    AccessLevel := "not_protected"
    Revision := "r1"
    Version := "13.0"
    IsShared := false
    MaximumTimeout := 3600
    TagList := ["docker", "shared"]
    Locked := false
    Online := "true"
    Status := true
    IPAddress := "203.0.113.5"
    ContactedAt := "2020-01-01T00:00:00Z"
    Architecture := "amd64"
    Name := "gitlab-runner"
    Projects := [⟨1, "p", "g / p", "p", "g/p"⟩]
    Groups := [⟨2, "g", "https://gitlab.example/g"⟩] }

/-- A runner client whose calls all succeed, answering `sampleDetails`. -/
def runnerClientOk : RunnerClient :=
  { registerNewRunner := fun _ => .ok sampleDetails
    getRunnerDetails := fun _ => .ok sampleDetails
    updateRunnerDetails := fun _ _ => .ok ()
    removeRunner := fun _ => .ok () }

/-- A runner client whose details lookup fails with a not-found error. -/
def runnerClientGetFails : RunnerClient :=
  { runnerClientOk with getRunnerDetails := fun _ => .error "404 Runner Not Found" }

/-- A runner client whose update call fails. -/
def runnerClientUpdateFails : RunnerClient :=
  { runnerClientOk with updateRunnerDetails := fun _ _ => .error "update failed" }

/-- Runner state with id "5", a registration token, and every optional
attribute undeclared. -/
def runnerData0 : RunnerResourceData :=
  { id := "5"
    registration_token := "abc123"
    description := none
    run_untagged := none
    active := none
    locked := none
    access_level := none
    tags := none
    maximum_timeout := none
    runner_id := 0
    token := ""
    revision := ""
    version := ""
    is_shared := false
    online := ""
    status := false
    ip_address := ""
    contacted_at := ""
    architecture := ""
    name := ""
    projects := []
    groups := [] }

/-- `runnerData0` with maximum_timeout explicitly supplied as 0. -/
def runnerDataTimeout0 : RunnerResourceData :=
  { runnerData0 with maximum_timeout := some 0 }

/-! ## The claims -/

/-- C1: for every pair of non-negative integers (projectId, runnerId),
encoding them into the composite identifier (the two decimal strings joined
by the fixed ":" separator, as the association Create does) and decoding
with projectIDAndRunnerIDFromID yields back the identical pair with no
error. -/
theorem claim_C1 (projectId runnerId : Nat) :
    projectIDAndRunnerIDFromID
        (buildTwoPartID (sprintfD (projectId : Int)) (sprintfD (runnerId : Int)))
      = ((projectId : Int), (runnerId : Int), none) :=
  decode_encode_int projectId runnerId

/-- C2 counterexample: with maximum_timeout supplied as 0 the register
request of Create and the update request of Update both OMIT the field
(GetOk reports a zero value as unset), so the requests do not carry literal
0 and a supplied 0 is not distinguishable from "not supplied". -/
theorem claim_C2_counterexample :
    runnerDataTimeout0.maximum_timeout = some 0
    ∧ Option.map RegisterNewRunnerOptions.MaximumTimeout
        (firstRegisterOptions (resourceGitlabRunnerCreate runnerClientOk runnerDataTimeout0).calls)
      = some none
    ∧ Option.map UpdateRunnerDetailsOptions.MaximumTimeout
        (firstUpdateOptions (resourceGitlabRunnerUpdate runnerClientOk runnerDataTimeout0).calls)
      = some none
    ∧ (some (none : Option Int) ≠ some (some (0 : Int))) :=
  ⟨rfl, rfl, rfl, by decide⟩

/-- C2 (amended): a maximum_timeout of 0 supplied by the caller is treated
the same as "not supplied": Create's and Update's outgoing requests omit
the field in both cases, and carry it exactly when the stored value is
non-zero. -/
theorem claim_C2 (client : RunnerClient) (d : RunnerResourceData) (i : Int)
    (hid : Atoi d.id = (i, none)) :
    Option.map RegisterNewRunnerOptions.MaximumTimeout
        (firstRegisterOptions (resourceGitlabRunnerCreate client d).calls)
      = some (timeoutSent d.maximum_timeout)
    ∧ Option.map UpdateRunnerDetailsOptions.MaximumTimeout
        (firstUpdateOptions (resourceGitlabRunnerUpdate client d).calls)
      = some (timeoutSent d.maximum_timeout)
    ∧ timeoutSent (some 0) = none
    ∧ timeoutSent none = none
    ∧ (∀ v : Int, v ≠ 0 → timeoutSent (some v) = some v) := by
  refine ⟨?_, ?_, rfl, rfl, fun v hv => ?_⟩
  · simp [runnerCreate_first_call, createRegisterOptions_eq]
  · simp [runnerUpdate_first_call client d i hid, updateRunnerOptions_eq]
  · simp [timeoutSent, hv]

theorem claim_C2_witness :
    Option.map RegisterNewRunnerOptions.MaximumTimeout
        (firstRegisterOptions (resourceGitlabRunnerCreate runnerClientOk runnerData0).calls)
      = some (timeoutSent runnerData0.maximum_timeout) :=
  (claim_C2 runnerClientOk runnerData0 5 rfl).1

/-- C3 counterexample: with no optional field declared, the register request
still carries description, run_untagged, active and locked — present with
their zero values rather than absent. -/
theorem claim_C3_counterexample :
    runnerData0.active = none
    ∧ runnerData0.description = none
    ∧ Option.map RegisterNewRunnerOptions.Active
        (firstRegisterOptions (resourceGitlabRunnerCreate runnerClientOk runnerData0).calls)
      = some (some false)
    ∧ Option.map RegisterNewRunnerOptions.Description
        (firstRegisterOptions (resourceGitlabRunnerCreate runnerClientOk runnerData0).calls)
      = some (some "") :=
  ⟨rfl, rfl, rfl, rfl⟩

/-- C3 (amended): the register request always carries the registration token
together with description, run_untagged, active and locked (their declared
values, or the zero value when undeclared), while tags and maximum_timeout
are carried exactly when declared non-empty respectively non-zero. -/
theorem claim_C3 (client : RunnerClient) (d : RunnerResourceData) :
    firstRegisterOptions (resourceGitlabRunnerCreate client d).calls
      = some
        { Token := some d.registration_token
          Description := some (d.description.getD "")
          RunUntagged := some (d.run_untagged.getD false)
          Active := some (d.active.getD false)
          Locked := some (d.locked.getD false)
          TagList := tagListSent d.tags
          MaximumTimeout := timeoutSent d.maximum_timeout } := by
  rw [runnerCreate_first_call, createRegisterOptions_eq]

/-- C4: for a well-formed composite identifier, the association Read lists
the project's runners; when the decoded runner id is absent it clears the
stored identifier and returns no error, and when present it returns no
error leaving the state unchanged. -/
theorem claim_C4 (client : AssocClient) (d : EnableRunnerData)
    (projectID runnerID : Int) (runners : List RunnerListEntry)
    (hdec : projectIDAndRunnerIDFromID d.id = (projectID, runnerID, none))
    (hlist : client.listProjectRunners projectID = .ok runners) :
    ((∀ r ∈ runners, r.ID ≠ runnerID) →
      resourceGitlabProjectEnableRunnerRead client d
        = ⟨[.list projectID], { d with id := "" }, none⟩)
    ∧ ((∃ r ∈ runners, r.ID = runnerID) →
      resourceGitlabProjectEnableRunnerRead client d
        = ⟨[.list projectID], d, none⟩) :=
  ⟨fun h => assocRead_notfound client d projectID runnerID runners hdec hlist h,
   fun h => assocRead_found client d projectID runnerID runners hdec hlist h⟩

theorem claim_C4_witness :
    resourceGitlabProjectEnableRunnerRead assocClientEmpty assocData0
      = ⟨[.list 7], { assocData0 with id := "" }, none⟩ :=
  (claim_C4 assocClientEmpty assocData0 7 42 [] rfl rfl).1 (by simp)

/-- C5: when the runner-details lookup fails, RunnerResource.Read returns
that lookup error unchanged and leaves every local field (including the
identity) unmodified. -/
theorem claim_C5 (client : RunnerClient) (d : RunnerResourceData)
    (runnerID : Int) (e : GoError)
    (hid : Atoi d.id = (runnerID, none))
    (hget : client.getRunnerDetails runnerID = .error e) :
    resourceGitlabRunnerRead client d = ⟨[.get runnerID], d, some e⟩ :=
  runnerRead_err client d runnerID e hid hget

theorem claim_C5_witness :
    resourceGitlabRunnerRead runnerClientGetFails runnerData0
      = ⟨[.get 5], runnerData0, some "404 Runner Not Found"⟩ :=
  claim_C5 runnerClientGetFails runnerData0 5 "404 Runner Not Found" rfl rfl

/-- C6: when the register call succeeds, Create stores the returned id as
the identifier and returns exactly the result of Update on the same declared
configuration (prepending the register call to the trace); that Update's
request includes accessLevel, and when its API call succeeds it concludes
with a full Read. -/
theorem claim_C6 (client : RunnerClient) (d : RunnerResourceData)
    (v : RunnerDetails)
    (hreg : client.registerNewRunner (createRegisterOptions d) = .ok v) :
    (resourceGitlabRunnerCreate client d
      = ⟨.register (createRegisterOptions d)
           :: (resourceGitlabRunnerUpdate client { d with id := sprintfD v.ID }).calls,
         (resourceGitlabRunnerUpdate client { d with id := sprintfD v.ID }).d,
         (resourceGitlabRunnerUpdate client { d with id := sprintfD v.ID }).err⟩)
    ∧ (updateRunnerOptions { d with id := sprintfD v.ID }).AccessLevel
        = some (d.access_level.getD "")
    ∧ (client.updateRunnerDetails v.ID
          (updateRunnerOptions { d with id := sprintfD v.ID }) = .ok () →
        resourceGitlabRunnerUpdate client { d with id := sprintfD v.ID }
          = ⟨.update v.ID (updateRunnerOptions { d with id := sprintfD v.ID })
               :: (resourceGitlabRunnerRead client { d with id := sprintfD v.ID }).calls,
             (resourceGitlabRunnerRead client { d with id := sprintfD v.ID }).d,
             (resourceGitlabRunnerRead client { d with id := sprintfD v.ID }).err⟩) := by
  refine ⟨runnerCreate_ok client d v hreg, rfl, fun hupd => ?_⟩
  exact runnerUpdate_ok client { d with id := sprintfD v.ID } v.ID
    (by
      rw [show ({ d with id := sprintfD v.ID } : RunnerResourceData).id
            = sprintfD v.ID from rfl, Atoi_sprintfD])
    hupd

theorem claim_C6_witness :
    resourceGitlabRunnerCreate runnerClientOk runnerData0
      = ⟨.register (createRegisterOptions runnerData0)
           :: (resourceGitlabRunnerUpdate runnerClientOk
                { runnerData0 with id := sprintfD sampleDetails.ID }).calls,
         (resourceGitlabRunnerUpdate runnerClientOk
            { runnerData0 with id := sprintfD sampleDetails.ID }).d,
         (resourceGitlabRunnerUpdate runnerClientOk
            { runnerData0 with id := sprintfD sampleDetails.ID }).err⟩ :=
  (claim_C6 runnerClientOk runnerData0 sampleDetails rfl).1

/-- C7: Update's request carries the tags collection exactly when at least
one tag is declared; on an update API error, Update returns that error
without invoking Read and without rewriting local state; on success it
concludes by invoking Read. -/
theorem claim_C7 (client : RunnerClient) (d : RunnerResourceData) (i : Int)
    (hid : Atoi d.id = (i, none)) :
    ((updateRunnerOptions d).TagList = tagListSent d.tags)
    ∧ ((updateRunnerOptions d).TagList ≠ none ↔ ∃ l, d.tags = some l ∧ l ≠ [])
    ∧ (∀ e, client.updateRunnerDetails i (updateRunnerOptions d) = .error e →
        resourceGitlabRunnerUpdate client d
          = ⟨[.update i (updateRunnerOptions d)], d, some e⟩)
    ∧ (client.updateRunnerDetails i (updateRunnerOptions d) = .ok () →
        resourceGitlabRunnerUpdate client d
          = ⟨.update i (updateRunnerOptions d)
               :: (resourceGitlabRunnerRead client d).calls,
             (resourceGitlabRunnerRead client d).d,
             (resourceGitlabRunnerRead client d).err⟩) := by
  refine ⟨?_, ?_, fun e he => runnerUpdate_err client d i e hid he,
    fun h => runnerUpdate_ok client d i hid h⟩
  · rw [updateRunnerOptions_eq]
  · rw [updateRunnerOptions_eq]
    cases ht : d.tags with
    | none => simp [tagListSent]
    | some l =>
      cases l with
      | nil => simp [tagListSent]
      | cons a t => simp [tagListSent, stringSetToStringSlice]

theorem claim_C7_witness :
    resourceGitlabRunnerUpdate runnerClientUpdateFails runnerData0
      = ⟨[.update 5 (updateRunnerOptions runnerData0)], runnerData0,
         some "update failed"⟩ :=
  (claim_C7 runnerClientUpdateFails runnerData0 5 rfl).2.2.1 "update failed" rfl

/-- C8: a successful RunnerResource.Read overwrites every mutable and
server-reported field with exactly the server's value — a full replace in
which the projects and groups lists are rebuilt in the API's order and only
the identity and purely-declared fields (id, registration_token, active,
run_untagged) survive from the prior state. -/
theorem claim_C8 (client : RunnerClient) (d : RunnerResourceData)
    (i : Int) (v : RunnerDetails)
    (hid : Atoi d.id = (i, none)) (hget : client.getRunnerDetails i = .ok v) :
    resourceGitlabRunnerRead client d
      = ⟨[.get i],
         { d with
            runner_id := v.ID
            token := v.Token
            description := some v.Description
            access_level := some v.AccessLevel
            revision := v.Revision
            version := v.Version
            is_shared := v.IsShared
            maximum_timeout := some v.MaximumTimeout
            tags := some v.TagList
            locked := some v.Locked
            online := v.Online
            status := v.Status
            ip_address := v.IPAddress
            contacted_at := v.ContactedAt
            architecture := v.Architecture
            name := v.Name
            projects := v.Projects.map (fun project =>
              { id := project.ID
                name := project.Name
                name_with_namespace := project.NameWithNamespace
                path := project.Path
                path_with_namespace := project.PathWithNamespace })
            groups := v.Groups.map (fun group =>
              { id := group.ID
                name := group.Name
                web_url := group.WebURL }) },
         none⟩ :=
  runnerRead_ok client d i v hid hget

theorem claim_C8_witness :
    resourceGitlabRunnerRead runnerClientOk runnerData0
      = ⟨[.get 5],
         { runnerData0 with
            runner_id := sampleDetails.ID
            token := sampleDetails.Token
            description := some sampleDetails.Description
            access_level := some sampleDetails.AccessLevel
            revision := sampleDetails.Revision
            version := sampleDetails.Version
            is_shared := sampleDetails.IsShared
            maximum_timeout := some sampleDetails.MaximumTimeout
            tags := some sampleDetails.TagList
            locked := some sampleDetails.Locked
            online := sampleDetails.Online
            status := sampleDetails.Status
            ip_address := sampleDetails.IPAddress
            contacted_at := sampleDetails.ContactedAt
            architecture := sampleDetails.Architecture
            name := sampleDetails.Name
            projects := sampleDetails.Projects.map (fun project =>
              { id := project.ID
                name := project.Name
                name_with_namespace := project.NameWithNamespace
                path := project.Path
                path_with_namespace := project.PathWithNamespace })
            groups := sampleDetails.Groups.map (fun group =>
              { id := group.ID
                name := group.Name
                web_url := group.WebURL }) },
         none⟩ :=
  claim_C8 runnerClientOk runnerData0 5 sampleDetails rfl rfl

/-- C9: a malformed composite identifier — missing the separator, or with a
non-integer project or runner half — decodes to an error (the half failures
prefixed "failed to get project: " respectively "failed to get runner: ")
together with zero values for both ids, and the association's Read and
Delete then return that error having issued no API call and left the state
unchanged. -/
theorem claim_C9 :
    (∀ s : String, (∀ c ∈ s.data, c ≠ ':') →
        projectIDAndRunnerIDFromID s
          = (0, 0, some ("Unexpected ID format (" ++ s ++ "). Expected project:key")))
    ∧ (∀ a b : String, (∀ c ∈ a.data, c ≠ ':') → ∀ ea, Atoi a = (0, some ea) →
        projectIDAndRunnerIDFromID (buildTwoPartID a b)
          = (0, 0, some ("failed to get project: " ++ ea)))
    ∧ (∀ a b : String, (∀ c ∈ a.data, c ≠ ':') → ∀ pa eb,
        Atoi a = (pa, none) → Atoi b = (0, some eb) →
        projectIDAndRunnerIDFromID (buildTwoPartID a b)
          = (0, 0, some ("failed to get runner: " ++ eb)))
    ∧ (∀ (client : AssocClient) (d : EnableRunnerData) (e : GoError),
        projectIDAndRunnerIDFromID d.id = (0, 0, some e) →
        resourceGitlabProjectEnableRunnerRead client d = ⟨[], d, some e⟩
        ∧ resourceGitlabProjectEnableRunnerDelete client d = ⟨[], d, some e⟩) := by
  refine ⟨fun s hs => ?_, fun a b ha ea hA => ?_, fun a b ha pa eb hA hB => ?_,
    fun client d e h =>
      ⟨assocRead_decode_err client d e h, assocDelete_decode_err client d e h⟩⟩
  · unfold projectIDAndRunnerIDFromID parseTwoPartID
    rw [splitFirstColon_none s.data hs]
  · unfold projectIDAndRunnerIDFromID
    rw [parseTwoPartID_build a b ha]
    simp [hA]
  · unfold projectIDAndRunnerIDFromID
    rw [parseTwoPartID_build a b ha]
    simp [hA, hB]

theorem claim_C9_witness :
    projectIDAndRunnerIDFromID (buildTwoPartID "a" "42")
      = (0, 0, some ("failed to get project: "
          ++ "strconv.Atoi: parsing \"a\": invalid syntax"))
    ∧ resourceGitlabProjectEnableRunnerRead assocClientEmpty assocDataBad
      = ⟨[], assocDataBad,
         some "Unexpected ID format (nocolon). Expected project:key"⟩ :=
  ⟨claim_C9.2.1 "a" "42" (by decide) "strconv.Atoi: parsing \"a\": invalid syntax" rfl,
   (claim_C9.2.2.2 assocClientEmpty assocDataBad
      "Unexpected ID format (nocolon). Expected project:key" rfl).1⟩

/-- C10: when the enable-runner call succeeds but the immediately following
listing of the project's runners does not contain the runner id, the
association Create returns success (nil error) while the stored identifier
has been cleared to empty — a successful Create does not guarantee a
non-empty stored identifier. -/
theorem claim_C10 (client : AssocClient) (d : EnableRunnerData)
    (runners : List RunnerListEntry)
    (hen : client.enableProjectRunner d.project_id d.runner_id = .ok ())
    (hlist : client.listProjectRunners d.project_id = .ok runners)
    (habsent : ∀ r ∈ runners, r.ID ≠ d.runner_id) :
    resourceGitlabProjectEnableRunnerCreate client d
      = ⟨[.enable d.project_id d.runner_id, .list d.project_id],
         { d with id := "" }, none⟩
    ∧ (resourceGitlabProjectEnableRunnerCreate client d).err = none
    ∧ (resourceGitlabProjectEnableRunnerCreate client d).d.id = "" := by
  have hd1 : projectIDAndRunnerIDFromID
      ({ d with id := buildTwoPartID (sprintfD d.project_id) (sprintfD d.runner_id) }
        : EnableRunnerData).id
      = (d.project_id, d.runner_id, none) :=
    decode_encode_int d.project_id d.runner_id
  have hread := assocRead_notfound client
    { d with id := buildTwoPartID (sprintfD d.project_id) (sprintfD d.runner_id) }
    d.project_id d.runner_id runners hd1 hlist habsent
  have hcr := assocCreate_ok client d hen
  have hmain : resourceGitlabProjectEnableRunnerCreate client d
      = ⟨[.enable d.project_id d.runner_id, .list d.project_id],
         { d with id := "" }, none⟩ := by
    rw [hcr, hread]
  exact ⟨hmain, by rw [hmain], by rw [hmain]⟩

theorem claim_C10_witness :
    resourceGitlabProjectEnableRunnerCreate assocClientEmpty ⟨"", 7, 42⟩
      = ⟨[.enable 7 42, .list 7], ⟨"", 7, 42⟩, none⟩ :=
  (claim_C10 assocClientEmpty ⟨"", 7, 42⟩ [] rfl rfl (by simp)).1
